import Mathlib

/-!
Shallow embedding of the marvenixx inventory/POS backend
(`src/models.py`, `src/db.py`, `src/routers/{sales,transfers,receipts,reports}.py`).

Conventions of the embedding:
* SQL `Numeric` quantities, prices and costs are modelled as exact rationals
  (`ℚ`); Python `float(...)` conversions are the identity in this model.
* A database state is a record of tables (lists of rows).  Queries read the
  committed state; `db.add(...)` accumulates pending rows that become visible
  only at `db.commit()`.  The session is created by `sessionmaker(bind=engine,
  autoflush=False, autocommit=False)` (src/db.py:8), so a query issued while
  rows are pending does NOT see those pending rows.
* Each request handler is a function `DB → Request → Except Err (DB × Output)`
  (or, for the receipts handler, which commits mid-loop, a function returning
  the committed state even on failure).  An `.error` outcome models a raised
  exception.  `deps.get_db` (module `deps` is not part of the sources; its
  src/db.py:34 twin `get_db` is) closes the session in a `finally:` block
  without committing, and per spec §5 an aborted transaction discards all of
  its writes; hence a handler that raises before its `db.commit()` leaves the
  committed state unchanged, which the `Except` result encodes by not
  returning a new state.
* Row ids assigned by the store's autoincrement are modelled as
  `max existing id + 1`.
-/

/-- Calendar date, standing in for Python `datetime.date`. -/
structure PyDate where
  year : Nat
  month : Nat
  day : Nat
deriving DecidableEq, Repr

/-- Key used to compare dates: for real dates (month ≤ 12, day ≤ 31) this
    agrees with Python's lexicographic `date` ordering. -/
def PyDate.toKey (d : PyDate) : Nat :=
  d.year * 10000 + d.month * 100 + d.day

/-- Timestamp (a date plus an opaque time-of-day), standing in for Python
    `datetime.datetime`; `func.date(...)` projects out `.date`. -/
structure PyDateTime where
  date : PyDate
  tod : Nat
deriving DecidableEq, Repr

/-- Descending comparison on timestamps (used for `order_by(... .desc())`). -/
def PyDateTime.key (t : PyDateTime) : Nat × Nat :=
  (t.date.toKey, t.tod)

/-- `product` table row (src/models.py:11-22). -/
structure Product where
  id : Nat
  sku : String
  name : String
  barcode : Option String := none
  unit : String := "piece"
  tax_rate : ℚ := 0
  is_perishable : Bool := true
  selling_price : ℚ := 0
  is_active : Bool := true
deriving DecidableEq, Repr

/-- `location` table row (src/models.py:25-29). -/
structure Location where
  id : Nat
  name : String
deriving DecidableEq, Repr

/-- `lot` table row (src/models.py:32-38). -/
structure Lot where
  id : Nat
  product_id : Nat
  lot_code : String
  expiry_date : Option PyDate := none
deriving DecidableEq, Repr

/-- `stock_move` ledger row (src/models.py:41-52).  The surrogate `id` and
    the `moved_at` timestamp are never read by any handler or report in the
    sources, so they are omitted from the embedding. -/
structure StockMove where
  product_id : Nat
  lot_id : Option Nat := none
  location_id : Nat
  qty : ℚ
  unit_cost : Option ℚ := none
  move_type : String
  ref : Option String := none
deriving DecidableEq, Repr

/-- `sale` table row (src/models.py:55-67). -/
structure Sale where
  id : Nat
  created_at : PyDateTime
  customer_name : Option String := none
  location_id : Nat
  receipt_no : Option String := none
  total_amount : ℚ := 0
deriving DecidableEq, Repr

/-- `sale_line` table row (src/models.py:72-82); the surrogate `id` is never
    read by any handler, so it is omitted. -/
structure SaleLine where
  sale_id : Nat
  product_id : Nat
  qty : ℚ
  unit_price : ℚ
  line_total : ℚ
deriving DecidableEq, Repr

/-- The committed database state: one list per table.  `now` models the
    store's clock used for `server_default=func.now()` columns. -/
structure DB where
  products : List Product := []
  locations : List Location := []
  lots : List Lot := []
  stock_moves : List StockMove := []
  sales : List Sale := []
  sale_lines : List SaleLine := []
  now : PyDateTime := ⟨⟨1970, 1, 1⟩, 0⟩
deriving DecidableEq, Repr

/-- SQL `SUM(...)`: `NULL` (here `none`) on an empty row set, otherwise the
    sum of the values. -/
def sqlSum : List ℚ → Option ℚ
  | [] => none
  | q :: qs => some (q + (sqlSum qs).getD 0)

/-- SQL `COALESCE(SUM(...), 0)`. -/
def sqlCoalesceSum (qs : List ℚ) : ℚ :=
  (sqlSum qs).getD 0

/-- `db.query(Product).filter(Product.sku == sku).first()` — `id` is the
    primary key and `sku` carries a unique constraint, so `.first()` is the
    unique match when one exists. -/
def findProductBySku (db : DB) (sku : String) : Option Product :=
  db.products.find? (fun p => p.sku == sku)

/-- `db.query(Location).filter(Location.id == loc_id).first()`. -/
def findLocationById (db : DB) (loc_id : Nat) : Option Location :=
  db.locations.find? (fun l => l.id == loc_id)

/-- `db.query(Sale).filter(Sale.id == sale_id).first()`. -/
def findSaleById (db : DB) (sale_id : Nat) : Option Sale :=
  db.sales.find? (fun s => s.id == sale_id)

/-- Whether a ledger row belongs to the (product, location) group. -/
def StockMove.matches (m : StockMove) (product_id location_id : Nat) : Bool :=
  m.product_id == product_id && m.location_id == location_id

/-- `get_available_qty` (src/routers/sales.py:32-42): coalesced sum of
    `StockMove.qty` over the rows matching both keys, `float(... or 0.0)`
    at the end. -/
def get_available_qty (db : DB) (product_id location_id : Nat) : ℚ :=
  sqlCoalesceSum
    ((db.stock_moves.filter (fun m => m.matches product_id location_id)).map
      (fun m => m.qty))

/-- `get_available_stock` (src/routers/transfers.py:27-45): the same
    coalesced-sum query, written in the transfers router. -/
def get_available_stock (db : DB) (product_id location_id : Nat) : ℚ :=
  sqlCoalesceSum
    ((db.stock_moves.filter (fun m => m.matches product_id location_id)).map
      (fun m => m.qty))

/-- Appending one ledger row (the only write the ledger ever receives). -/
def DB.appendMove (db : DB) (m : StockMove) : DB :=
  { db with stock_moves := db.stock_moves ++ [m] }

/-- Appending a batch of ledger rows in order. -/
def DB.appendMoves (db : DB) (ms : List StockMove) : DB :=
  { db with stock_moves := db.stock_moves ++ ms }

theorem sqlSum_getD_eq_sum (qs : List ℚ) : (sqlSum qs).getD 0 = qs.sum := by
  induction qs with
  | nil => rfl
  | cons q qs ih => simp [sqlSum, ih]

theorem sqlCoalesceSum_eq_sum (qs : List ℚ) : sqlCoalesceSum qs = qs.sum :=
  sqlSum_getD_eq_sum qs

/-- C1.  The derived availability is exactly the sum of `qty` over the
    matching ledger rows; it is `0` when no rows match; the two routers'
    queries agree; and availability is additive over any batch of appended
    ledger rows (hence correct after any sequence of RECEIPT/SALE/TRANSFER
    appends), each appended row contributing its `qty` iff it matches both
    keys. -/
theorem available_qty_spec (db : DB) (p l : Nat) :
    get_available_qty db p l =
      ((db.stock_moves.filter (fun m => m.matches p l)).map
        (fun m => m.qty)).sum
    ∧ (db.stock_moves.filter (fun m => m.matches p l) = [] →
        get_available_qty db p l = 0)
    ∧ get_available_stock db p l = get_available_qty db p l
    ∧ ∀ ms : List StockMove,
        get_available_qty (db.appendMoves ms) p l =
          get_available_qty db p l +
            ((ms.filter (fun m => m.matches p l)).map (fun m => m.qty)).sum := by
  refine ⟨sqlCoalesceSum_eq_sum _, ?_, rfl, ?_⟩
  · intro h
    simp [get_available_qty, h, sqlCoalesceSum, sqlSum]
  · intro ms
    simp [get_available_qty, DB.appendMoves, sqlCoalesceSum_eq_sum,
      List.filter_append]

/-- Witness for C1 at a concrete ledger: one matching RECEIPT row and one
    non-matching row, then a SALE append. -/
theorem available_qty_spec_witness :
    get_available_qty
        { stock_moves :=
            [⟨1, none, 1, 100, none, "RECEIPT", none⟩,
             ⟨1, none, 2, 7, none, "RECEIPT", none⟩] } 1 1 = 100
    ∧ get_available_qty
        (DB.appendMoves
          { stock_moves :=
              [⟨1, none, 1, 100, none, "RECEIPT", none⟩,
               ⟨1, none, 2, 7, none, "RECEIPT", none⟩] }
          [⟨1, none, 1, -30, none, "SALE", none⟩]) 1 1 = 70 := by
  constructor
  · have h := (available_qty_spec
      { stock_moves :=
          [⟨1, none, 1, 100, none, "RECEIPT", none⟩,
           ⟨1, none, 2, 7, none, "RECEIPT", none⟩] } 1 1).1
    rw [h]; simp [StockMove.matches]
  · have h := (available_qty_spec
      { stock_moves :=
          [⟨1, none, 1, 100, none, "RECEIPT", none⟩,
           ⟨1, none, 2, 7, none, "RECEIPT", none⟩] } 1 1).2.2.2
        [⟨1, none, 1, -30, none, "SALE", none⟩]
    rw [h]
    simp [StockMove.matches, get_available_qty, sqlCoalesceSum, sqlSum]
    norm_num

/-- Raised exceptions, classified by the spec's error taxonomy (§7).  Each
    constructor records the raise's detail message; the HTTP status at the
    raise site is noted per handler (`invalidRequest` and
    `insufficientStock` surface as 400, `notFound` as 404 in the sales
    router and as 400 in the receipts/transfers routers,
    `attributeError`/`unboundLocal` are Python runtime errors surfacing as
    a generic 500 server fault). -/
inductive Err where
  | invalidRequest (detail : String)
  | notFound (detail : String)
  | insufficientStock (detail : String)
  | attributeError (attr : String)
  | unboundLocal (name : String)
deriving DecidableEq, Repr

/-- Request line for POST /stock_transfer (src/routers/transfers.py:16-18). -/
structure TransferLineIn where
  product_sku : String
  qty : ℚ
deriving DecidableEq, Repr

/-- Request body for POST /stock_transfer (src/routers/transfers.py:21-24). -/
structure StockTransferIn where
  from_location_id : Nat
  to_location_id : Nat
  lines : List TransferLineIn
deriving DecidableEq, Repr

/-- Response line of a successful transfer (src/routers/transfers.py:137-152). -/
structure TransferOutLine where
  sku : String
  name : String
  qty_transferred : ℚ
  remaining_at_from_location : ℚ
deriving DecidableEq, Repr

/-- Response body of a successful transfer (src/routers/transfers.py:154-159). -/
structure TransferOut where
  status : String
  from_location : String
  to_location : String
  lines : List TransferOutLine
deriving DecidableEq, Repr

/-- The `TRANSFER_OUT` ledger row built for one line
    (src/routers/transfers.py:111-119). -/
def mkTransferOut (product : Product) (payload : StockTransferIn)
    (line : TransferLineIn) : StockMove :=
  { product_id := product.id
    lot_id := none
    location_id := payload.from_location_id
    qty := -line.qty
    unit_cost := none
    move_type := "TRANSFER_OUT"
    ref := some ("TRANSFER-" ++ toString payload.from_location_id ++ "->"
      ++ toString payload.to_location_id) }

/-- The `TRANSFER_IN` ledger row built for one line
    (src/routers/transfers.py:123-131). -/
def mkTransferIn (product : Product) (payload : StockTransferIn)
    (line : TransferLineIn) : StockMove :=
  { product_id := product.id
    lot_id := none
    location_id := payload.to_location_id
    qty := line.qty
    unit_cost := none
    move_type := "TRANSFER_IN"
    ref := some ("TRANSFER-" ++ toString payload.from_location_id ++ "->"
      ++ toString payload.to_location_id) }

/-- Validation loop of `create_stock_transfer`
    (src/routers/transfers.py:70-101): per line, in order, reject
    `qty <= 0`, resolve the SKU (raising 400 on an unknown SKU), and check
    `qty` against the availability at the FROM location computed on the
    state at transfer start; no ledger row has been added yet, so every
    line is checked against the original availability.  Returns each line
    paired with its resolved product (the code stores the resolution in
    `sku_to_product` and re-reads it in the write phase; `first()` on an
    unchanged session is deterministic, so pairing is equivalent). -/
def validateTransferLines (db : DB) (payload : StockTransferIn)
    (from_loc : Location) :
    List TransferLineIn → Except Err (List (TransferLineIn × Product))
  | [] => .ok []
  | line :: rest =>
    if line.qty ≤ 0 then
      .error (.invalidRequest "All quantities must be > 0.")
    else
      match findProductBySku db line.product_sku with
      | none => .error (.invalidRequest ("Unknown SKU: " ++ line.product_sku))
      | some product =>
        if line.qty > get_available_stock db product.id payload.from_location_id then
          .error (.insufficientStock
            ("Not enough stock for " ++ product.name ++ " (SKU " ++ product.sku
              ++ ") at " ++ from_loc.name))
        else
          match validateTransferLines db payload from_loc rest with
          | .error e => .error e
          | .ok rest' => .ok ((line, product) :: rest')

/-- The pair of ledger rows a successful transfer appends for one line;
    empty when the SKU does not resolve (unreachable on the success path). -/
def transferPair (db : DB) (payload : StockTransferIn)
    (line : TransferLineIn) : List StockMove :=
  match findProductBySku db line.product_sku with
  | none => []
  | some product => [mkTransferOut product payload line,
      mkTransferIn product payload line]

/-- `create_stock_transfer` (src/routers/transfers.py:48-159): rejects
    `from == to` and empty lines, resolves both locations (400 if either is
    unknown), validates every line against the start-of-transfer
    availability, then appends one OUT and one IN row per line in a single
    commit and reports the post-commit remaining stock at the FROM
    location. -/
def create_stock_transfer (db : DB) (payload : StockTransferIn) :
    Except Err (DB × TransferOut) :=
  if payload.from_location_id == payload.to_location_id then
    .error (.invalidRequest "From and To locations must be different.")
  else if payload.lines.isEmpty then
    .error (.invalidRequest "No lines in transfer.")
  else
    match findLocationById db payload.from_location_id,
        findLocationById db payload.to_location_id with
    | some from_loc, some to_loc =>
      match validateTransferLines db payload from_loc payload.lines with
      | .error e => .error e
      | .ok resolved =>
        let moves := (resolved.map (fun lp =>
          [mkTransferOut lp.2 payload lp.1, mkTransferIn lp.2 payload lp.1])).flatten
        let db' := db.appendMoves moves
        let result_lines : List TransferOutLine := resolved.map (fun lp =>
          { sku := lp.2.sku
            name := lp.2.name
            qty_transferred := lp.1.qty
            remaining_at_from_location :=
              get_available_stock db' lp.2.id payload.from_location_id })
        .ok (db',
          { status := "ok"
            from_location := from_loc.name
            to_location := to_loc.name
            lines := result_lines })
    | _, _ => .error (.invalidRequest "Invalid location ID(s).")

theorem validateTransferLines_ok_shape (db : DB) (p : StockTransferIn)
    (floc : Location) :
    ∀ (lines : List TransferLineIn) (resolved : List (TransferLineIn × Product)),
      validateTransferLines db p floc lines = .ok resolved →
        resolved.map Prod.fst = lines ∧
        ∀ pr ∈ resolved, findProductBySku db pr.1.product_sku = some pr.2
  | [], resolved => by
    intro h
    simp only [validateTransferLines] at h
    cases h
    simp
  | line :: rest, resolved => by
    intro h
    simp only [validateTransferLines] at h
    by_cases hq : line.qty ≤ 0
    · rw [if_pos hq] at h; cases h
    · rw [if_neg hq] at h
      cases hfind : findProductBySku db line.product_sku with
      | none => rw [hfind] at h; cases h
      | some product =>
        simp only [hfind] at h
        by_cases hav : line.qty >
            get_available_stock db product.id p.from_location_id
        · rw [if_pos hav] at h; cases h
        · rw [if_neg hav] at h
          cases hrec : validateTransferLines db p floc rest with
          | error e => rw [hrec] at h; cases h
          | ok rest' =>
            rw [hrec] at h
            cases h
            have ih := validateTransferLines_ok_shape db p floc rest rest' hrec
            refine ⟨by simp [ih.1], ?_⟩
            intro pr hpr
            rcases List.mem_cons.mp hpr with hpr | hpr
            · subst hpr; exact hfind
            · exact ih.2 pr hpr

theorem validateTransferLines_ok_of_no_shortage (db : DB) (p : StockTransferIn)
    (floc : Location) :
    ∀ lines : List TransferLineIn,
      (∀ l ∈ lines, 0 < l.qty) →
      (∀ l ∈ lines, (findProductBySku db l.product_sku).isSome) →
      (¬ ∃ l ∈ lines, ∃ prod, findProductBySku db l.product_sku = some prod ∧
          get_available_stock db prod.id p.from_location_id < l.qty) →
      ∃ resolved, validateTransferLines db p floc lines = .ok resolved
  | [] => by
    intro _ _ _
    exact ⟨[], rfl⟩
  | line :: rest => by
    intro hqty hsku hno
    obtain ⟨product, hfind⟩ := Option.isSome_iff_exists.mp
      (hsku line (List.mem_cons_self _ _))
    have hq : ¬ line.qty ≤ 0 := not_le.mpr (hqty line (List.mem_cons_self _ _))
    have hav : ¬ line.qty >
        get_available_stock db product.id p.from_location_id := by
      intro hgt
      exact hno ⟨line, List.mem_cons_self _ _, product, hfind, hgt⟩
    obtain ⟨rest', hrest⟩ := validateTransferLines_ok_of_no_shortage db p floc
      rest (fun l hl => hqty l (List.mem_cons_of_mem _ hl))
      (fun l hl => hsku l (List.mem_cons_of_mem _ hl))
      (fun ⟨l, hl, prod, hf, hlt⟩ =>
        hno ⟨l, List.mem_cons_of_mem _ hl, prod, hf, hlt⟩)
    refine ⟨(line, product) :: rest', ?_⟩
    simp only [validateTransferLines, if_neg hq, hfind, if_neg hav, hrest]

theorem validateTransferLines_shortage_error (db : DB) (p : StockTransferIn)
    (floc : Location) :
    ∀ lines : List TransferLineIn,
      (∀ l ∈ lines, 0 < l.qty) →
      (∀ l ∈ lines, (findProductBySku db l.product_sku).isSome) →
      (∃ l ∈ lines, ∃ prod, findProductBySku db l.product_sku = some prod ∧
          get_available_stock db prod.id p.from_location_id < l.qty) →
      ∃ m, validateTransferLines db p floc lines = .error (.insufficientStock m)
  | [] => by
    intro _ _ hbad
    simp at hbad
  | line :: rest => by
    intro hqty hsku hbad
    obtain ⟨product, hfind⟩ := Option.isSome_iff_exists.mp
      (hsku line (List.mem_cons_self _ _))
    have hq : ¬ line.qty ≤ 0 := not_le.mpr (hqty line (List.mem_cons_self _ _))
    by_cases hav : line.qty >
        get_available_stock db product.id p.from_location_id
    · refine ⟨"Not enough stock for " ++ product.name ++ " (SKU " ++ product.sku
        ++ ") at " ++ floc.name, ?_⟩
      simp only [validateTransferLines, if_neg hq, hfind, if_pos hav]
    · have hbad' : ∃ l ∈ rest, ∃ prod, findProductBySku db l.product_sku = some prod ∧
          get_available_stock db prod.id p.from_location_id < l.qty := by
        rcases hbad with ⟨l, hl, prod, hf, hlt⟩
        rcases List.mem_cons.mp hl with rfl | hl
        · rw [hfind] at hf
          cases hf
          exact absurd hlt hav
        · exact ⟨l, hl, prod, hf, hlt⟩
      obtain ⟨m, hm⟩ := validateTransferLines_shortage_error db p floc rest
        (fun l hl => hqty l (List.mem_cons_of_mem _ hl))
        (fun l hl => hsku l (List.mem_cons_of_mem _ hl)) hbad'
      refine ⟨m, ?_⟩
      simp only [validateTransferLines, if_neg hq, hfind, if_neg hav, hm]

theorem validateTransferLines_error_cases (db : DB) (p : StockTransferIn)
    (floc : Location) :
    ∀ (lines : List TransferLineIn) (e : Err),
      (∀ l ∈ lines, 0 < l.qty) →
      (∀ l ∈ lines, (findProductBySku db l.product_sku).isSome) →
      validateTransferLines db p floc lines = .error e →
      (∃ m, e = .insufficientStock m) ∧
        ∃ l ∈ lines, ∃ prod, findProductBySku db l.product_sku = some prod ∧
          get_available_stock db prod.id p.from_location_id < l.qty
  | [], e => by
    intro _ _ h
    simp only [validateTransferLines] at h
    cases h
  | line :: rest, e => by
    intro hqty hsku h
    obtain ⟨product, hfind⟩ := Option.isSome_iff_exists.mp
      (hsku line (List.mem_cons_self _ _))
    have hq : ¬ line.qty ≤ 0 := not_le.mpr (hqty line (List.mem_cons_self _ _))
    simp only [validateTransferLines, if_neg hq, hfind] at h
    by_cases hav : line.qty >
        get_available_stock db product.id p.from_location_id
    · rw [if_pos hav] at h
      cases h
      exact ⟨⟨_, rfl⟩, line, List.mem_cons_self _ _, product, hfind, hav⟩
    · rw [if_neg hav] at h
      cases hrec : validateTransferLines db p floc rest with
      | error e2 =>
        rw [hrec] at h
        cases h
        obtain ⟨hm, l, hl, prod, hf, hlt⟩ :=
          validateTransferLines_error_cases db p floc rest _
            (fun l hl => hqty l (List.mem_cons_of_mem _ hl))
            (fun l hl => hsku l (List.mem_cons_of_mem _ hl)) hrec
        exact ⟨hm, l, List.mem_cons_of_mem _ hl, prod, hf, hlt⟩
      | ok rest' => rw [hrec] at h; cases h

/-- C6.  For a transfer with distinct valid locations, nonempty lines, all
    quantities positive and all SKUs resolvable, the handler fails with
    `InsufficientStock` exactly when some line's qty exceeds the
    availability at the source location computed on the database state at
    transfer start — no ledger row of this transfer is visible to any of
    the per-line checks, even when the same SKU repeats across lines. -/
theorem transfer_insufficient_iff_start_shortage (db : DB) (p : StockTransferIn)
    (from_loc to_loc : Location)
    (hne : p.from_location_id ≠ p.to_location_id)
    (hnil : p.lines ≠ [])
    (hfrom : findLocationById db p.from_location_id = some from_loc)
    (hto : findLocationById db p.to_location_id = some to_loc)
    (hqty : ∀ l ∈ p.lines, 0 < l.qty)
    (hsku : ∀ l ∈ p.lines, (findProductBySku db l.product_sku).isSome) :
    (∃ m, create_stock_transfer db p = .error (.insufficientStock m)) ↔
      ∃ l ∈ p.lines, ∃ prod, findProductBySku db l.product_sku = some prod ∧
        get_available_stock db prod.id p.from_location_id < l.qty := by
  have hne' : (p.from_location_id == p.to_location_id) = false := by
    simpa using hne
  have hnil' : p.lines.isEmpty = false := by
    simpa [List.isEmpty_iff] using hnil
  cases hv : validateTransferLines db p from_loc p.lines with
  | error e =>
    obtain ⟨⟨m, rfl⟩, hshort⟩ :=
      validateTransferLines_error_cases db p from_loc p.lines e hqty hsku hv
    constructor
    · intro _
      exact hshort
    · intro _
      refine ⟨m, ?_⟩
      simp only [create_stock_transfer, hne', hnil', hfrom, hto, hv]
      rfl
  | ok resolved =>
    constructor
    · intro ⟨m, hm⟩
      simp only [create_stock_transfer, hne', hnil', hfrom, hto, hv] at hm
      cases hm
    · intro hbad
      obtain ⟨m, hm⟩ := validateTransferLines_shortage_error db p from_loc
        p.lines hqty hsku hbad
      rw [hv] at hm
      cases hm

/-- Example database shared by the transfer scenarios: one product with 50
    units on hand at location 1. -/
def exTransferDb : DB :=
  { products := [{ id := 1, sku := "X", name := "Prod X" }]
    locations := [⟨1, "A"⟩, ⟨2, "B"⟩]
    stock_moves := [⟨1, none, 1, 50, none, "RECEIPT", none⟩] }

/-- Concrete instance of C6: one product with 50 on hand at the source,
    transferring 60 is rejected as insufficient stock. -/
theorem transfer_insufficient_iff_start_shortage_witness :
    ∃ m, create_stock_transfer exTransferDb ⟨1, 2, [⟨"X", 60⟩]⟩ =
      .error (.insufficientStock m) := by
  refine (transfer_insufficient_iff_start_shortage exTransferDb
    ⟨1, 2, [⟨"X", 60⟩]⟩ ⟨1, "A"⟩ ⟨2, "B"⟩
    (by decide) (by simp) rfl rfl ?_ ?_).mpr ?_
  · intro l hl
    rw [List.mem_singleton] at hl
    subst hl
    norm_num
  · intro l hl
    rw [List.mem_singleton] at hl
    subst hl
    rfl
  · refine ⟨⟨"X", 60⟩, List.mem_singleton_self _,
      { id := 1, sku := "X", name := "Prod X" }, rfl, ?_⟩
    simp [get_available_stock, sqlCoalesceSum, sqlSum, StockMove.matches]
    norm_num

/-- C7.  A successful transfer appends, per line and in line order, exactly
    one `TRANSFER_OUT` row with `qty = -line.qty` at the source location and
    one `TRANSFER_IN` row with `qty = +line.qty` at the destination, the two
    sharing the same correlation `ref` tag, so each pair sums to a net-zero
    ledger delta; no other ledger rows are touched. -/
theorem transfer_appends_net_zero_pairs (db : DB) (p : StockTransferIn)
    (db' : DB) (out : TransferOut)
    (h : create_stock_transfer db p = .ok (db', out)) :
    db'.stock_moves = db.stock_moves ++ (p.lines.map (transferPair db p)).flatten
    ∧ ∀ l ∈ p.lines, ∃ prod, findProductBySku db l.product_sku = some prod ∧
        transferPair db p l = [mkTransferOut prod p l, mkTransferIn prod p l] ∧
        (mkTransferOut prod p l).qty = -l.qty ∧
        (mkTransferIn prod p l).qty = l.qty ∧
        (mkTransferOut prod p l).qty + (mkTransferIn prod p l).qty = 0 ∧
        (mkTransferOut prod p l).ref = (mkTransferIn prod p l).ref ∧
        (mkTransferOut prod p l).location_id = p.from_location_id ∧
        (mkTransferIn prod p l).location_id = p.to_location_id ∧
        (mkTransferOut prod p l).move_type = "TRANSFER_OUT" ∧
        (mkTransferIn prod p l).move_type = "TRANSFER_IN" := by
  simp only [create_stock_transfer] at h
  split at h
  · cases h
  · split at h
    · cases h
    · split at h
      · rename_i from_loc to_loc hfrom hto
        split at h
        · cases h
        · rename_i resolved hv
          obtain ⟨hfst, hres⟩ :=
            validateTransferLines_ok_shape _ _ _ _ _ hv
          cases h
          constructor
          · simp only [DB.appendMoves]
            congr 1
            rw [← hfst, List.map_map]
            refine congrArg List.flatten (List.map_congr_left ?_)
            intro pr hpr
            simp only [Function.comp_apply, transferPair, hres pr hpr]
          · intro l hl
            rw [← hfst] at hl
            obtain ⟨pr, hpr, rfl⟩ := List.mem_map.mp hl
            refine ⟨pr.2, hres pr hpr, ?_, by simp [mkTransferOut],
              by simp [mkTransferIn], by simp [mkTransferOut, mkTransferIn],
              rfl, rfl, rfl, rfl, rfl⟩
            simp only [transferPair, hres pr hpr]
      · cases h

/-- Concrete instance of C7: transferring 20 of 50 available appends the
    OUT/IN pair and nothing else. -/
theorem transfer_appends_net_zero_pairs_witness :
    ∃ db' out, create_stock_transfer exTransferDb ⟨1, 2, [⟨"X", 20⟩]⟩ =
        .ok (db', out) ∧
      db'.stock_moves = exTransferDb.stock_moves ++
        (([⟨"X", 20⟩] : List TransferLineIn).map
          (transferPair exTransferDb ⟨1, 2, [⟨"X", 20⟩]⟩)).flatten := by
  have h : create_stock_transfer exTransferDb ⟨1, 2, [⟨"X", 20⟩]⟩ =
      .ok (exTransferDb.appendMoves
            [⟨1, none, 1, -20, none, "TRANSFER_OUT", some "TRANSFER-1->2"⟩,
             ⟨1, none, 2, 20, none, "TRANSFER_IN", some "TRANSFER-1->2"⟩],
          { status := "ok"
            from_location := "A"
            to_location := "B"
            lines := [⟨"X", "Prod X", 20, 30⟩] }) := by
    norm_num [create_stock_transfer, exTransferDb, validateTransferLines,
      findLocationById, findProductBySku, get_available_stock, sqlCoalesceSum,
      sqlSum, StockMove.matches, mkTransferOut, mkTransferIn, DB.appendMoves,
      Option.getD]
    rfl
  exact ⟨_, _, h, (transfer_appends_net_zero_pairs _ _ _ _ h).1⟩

/-- Line of POST /sales (src/routers/sales.py:55-58): `SaleLineIn` declares
    only `sku`, `qty`, `unit_price` — there is no `location_id` field. -/
structure SaleLineIn where
  sku : String
  qty : ℚ
  unit_price : ℚ
deriving DecidableEq, Repr

/-- Body of POST /sales (src/routers/sales.py:62-66). -/
structure SaleIn where
  customer_name : Option String := none
  location_id : Nat
  payment_method : Option String := none
  lines : List SaleLineIn
deriving DecidableEq, Repr

/-- Low-stock warning entry (src/routers/sales.py:143-149). -/
structure LowStockEntry where
  sku : String
  name : String
  remaining : ℚ
deriving DecidableEq, Repr

/-- Response of POST /sales on the (unreachable) success path
    (src/routers/sales.py:156). -/
structure SaleOut where
  sale_id : Nat
  total : ℚ
  low_stock : List LowStockEntry
deriving DecidableEq, Repr

/-- `ALERT_THRESHOLD = 5` (src/routers/sales.py:15). -/
def ALERT_THRESHOLD : ℚ := 5

/-- src/routers/sales.py:109 evaluates `int(line.location_id)`; the
    request schema `SaleLineIn` has no `location_id` attribute, so Python
    raises `AttributeError` at this point of every line iteration. -/
def saleLineLocationId (_ : SaleLineIn) : Except Err Nat :=
  .error (.attributeError "location_id")

/-- src/routers/sales.py:117 executes `total += line_total`, but `total`
    is never initialised before the loop; a read of the unbound local
    raises `UnboundLocalError`.  The accumulator is therefore modelled as
    `Option ℚ` starting at `none`. -/
def pyAugAddTotal : Option ℚ → ℚ → Except Err ℚ
  | none, _ => .error (.unboundLocal "total")
  | some t, x => .ok (t + x)

/-- Per-line loop of `create_sale` (src/routers/sales.py:98-149): resolve
    the SKU (404), reject non-positive qty (400), read the nonexistent
    `line.location_id` (AttributeError), check stock there, accumulate the
    unbound `total`, stage the SaleLine and the negative SALE ledger row
    (header location), and record a low-stock warning. -/
def create_sale_lines (db : DB) (sale_id header_loc : Nat) :
    List SaleLineIn → Option ℚ → List LowStockEntry → List SaleLine →
      List StockMove →
      Except Err (Option ℚ × List LowStockEntry × List SaleLine × List StockMove)
  | [], total, low, pls, pms => .ok (total, low, pls, pms)
  | line :: rest, total, low, pls, pms =>
    match findProductBySku db line.sku with
    | none => .error (.notFound ("Product not found: " ++ line.sku))
    | some product =>
      if line.qty ≤ 0 then .error (.invalidRequest "qty must be > 0")
      else
        match saleLineLocationId line with
        | .error e => .error e
        | .ok loc =>
          let available := get_available_qty db product.id loc
          if line.qty > available then
            .error (.insufficientStock ("Not enough stock for " ++ product.name))
          else
            match pyAugAddTotal total (line.qty * line.unit_price) with
            | .error e => .error e
            | .ok total' =>
              let sl : SaleLine :=
                ⟨sale_id, product.id, line.qty, line.unit_price,
                  line.qty * line.unit_price⟩
              let sm : StockMove :=
                ⟨product.id, none, header_loc, -line.qty, none, "SALE",
                  some ("SALE#" ++ toString sale_id)⟩
              let remaining := available - line.qty
              let low' := if remaining ≤ ALERT_THRESHOLD then
                  low ++ [⟨product.sku, product.name, remaining⟩] else low
              create_sale_lines db sale_id header_loc rest (some total') low'
                (pls ++ [sl]) (pms ++ [sm])

/-- `create_sale` (src/routers/sales.py:71-156): reject falsy
    `location_id` and empty `lines`; flush a provisional Sale header; run
    the per-line loop; set `sale.total_amount = total` and commit.  The
    single `db.commit()` sits at the end (line 154), so an error anywhere
    above leaves the committed tables unchanged. -/
def create_sale (db : DB) (payload : SaleIn) : Except Err (DB × SaleOut) :=
  if payload.location_id = 0 then
    .error (.invalidRequest "location_id is required")
  else if payload.lines.isEmpty then
    .error (.invalidRequest "No lines provided")
  else
    let sale_id := (db.sales.map (fun s => s.id)).foldr max 0 + 1
    match create_sale_lines db sale_id payload.location_id payload.lines
        none [] [] [] with
    | .error e => .error e
    | .ok (total, low, pls, pms) =>
      match total with
      | none => .error (.unboundLocal "total")
      | some t =>
        let sale : Sale :=
          { id := sale_id
            created_at := db.now
            customer_name := payload.customer_name
            location_id := payload.location_id
            total_amount := t }
        .ok ({ db with
                sales := db.sales ++ [sale]
                sale_lines := db.sale_lines ++ pls
                stock_moves := db.stock_moves ++ pms },
              ⟨sale_id, t, low⟩)

theorem create_sale_lines_cons_errors (db : DB) (sid hloc : Nat)
    (line : SaleLineIn) (rest : List SaleLineIn) (total : Option ℚ)
    (low : List LowStockEntry) (pls : List SaleLine) (pms : List StockMove) :
    ∃ e, create_sale_lines db sid hloc (line :: rest) total low pls pms =
        .error e ∧
      (e = .notFound ("Product not found: " ++ line.sku) ∨
        e = .invalidRequest "qty must be > 0" ∨
        e = .attributeError "location_id") := by
  cases hfind : findProductBySku db line.sku with
  | none =>
    exact ⟨_, by simp only [create_sale_lines, hfind], Or.inl rfl⟩
  | some product =>
    by_cases hq : line.qty ≤ 0
    · exact ⟨_, by simp only [create_sale_lines, hfind, if_pos hq],
        Or.inr (Or.inl rfl)⟩
    · exact ⟨_, by simp only [create_sale_lines, hfind, if_neg hq,
        saleLineLocationId], Or.inr (Or.inr rfl)⟩

/-- C4 (divergence witness).  `create_sale` can never commit: for every
    database and every payload it raises before reaching `db.commit()` —
    with empty or missing inputs it raises 400, and otherwise the first
    line iteration reads the nonexistent `line.location_id`
    (AttributeError; and `total` would be unbound even after that).  So no
    sale request, however valid, ever returns a total or persists rows. -/
theorem create_sale_never_commits (db : DB) (p : SaleIn) (res : DB × SaleOut) :
    create_sale db p ≠ .ok res := by
  intro h
  unfold create_sale at h
  split at h
  · cases h
  · split at h
    · cases h
    · rename_i hne
      cases hl : p.lines with
      | nil =>
        rw [hl] at hne
        simp at hne
      | cons line rest =>
        rw [hl] at h
        obtain ⟨e, he, _⟩ := create_sale_lines_cons_errors db
          ((db.sales.map (fun s => s.id)).foldr max 0 + 1) p.location_id
          line rest none [] [] []
        simp only [he] at h
        cases h

/-- Closed instance of C4: a perfectly valid one-line sale with ample
    stock does not commit. -/
theorem create_sale_never_commits_witness :
    create_sale
        { products := [{ id := 1, sku := "RICE0001", name := "Rice" }]
          locations := [⟨1, "Main Store"⟩]
          stock_moves := [⟨1, none, 1, 100, none, "RECEIPT", none⟩] }
        ⟨none, 1, none, [⟨"RICE0001", 2, 3⟩]⟩ ≠
      .ok ({ products := [{ id := 1, sku := "RICE0001", name := "Rice" }]
             locations := [⟨1, "Main Store"⟩]
             stock_moves := [⟨1, none, 1, 100, none, "RECEIPT", none⟩] },
           ⟨1, 6, []⟩) :=
  create_sale_never_commits _ _ _

/-- C2 (divergence witness).  A sale whose only line asks for 5 units with
    only 3 available does NOT fail with `InsufficientStock`: the handler
    raises `AttributeError` on `line.location_id` (a field `SaleLineIn`
    does not have) before any stock check runs, surfacing as a 500.  The
    commit on line 154 is never reached, so the tables stay unchanged
    (the provisional flushed Sale header is discarded with the session). -/
theorem create_sale_insufficient_stock_divergence :
    create_sale
        { products := [{ id := 1, sku := "RICE0001", name := "Rice" }]
          locations := [⟨1, "Main Store"⟩]
          stock_moves := [⟨1, none, 1, 3, none, "RECEIPT", none⟩] }
        ⟨none, 1, none, [⟨"RICE0001", 5, 2⟩]⟩ =
      .error (.attributeError "location_id") := by
  simp [create_sale, create_sale_lines, findProductBySku, saleLineLocationId]
  norm_num

/-- C3 (divergence witness).  Even with ample stock at the header
    location, the availability check never evaluates against the header
    location: the code reads the per-line `line.location_id`, which the
    schema lacks, so the first line raises `AttributeError` instead of
    checking stock at `payload.location_id`. -/
theorem create_sale_header_location_divergence :
    create_sale
        { products := [{ id := 1, sku := "RICE0001", name := "Rice" }]
          locations := [⟨1, "Main Store"⟩]
          stock_moves := [⟨1, none, 1, 100, none, "RECEIPT", none⟩] }
        ⟨none, 1, none, [⟨"RICE0001", 1, 2⟩]⟩ =
      .error (.attributeError "location_id") := by
  simp [create_sale, create_sale_lines, findProductBySku, saleLineLocationId]
  norm_num

/-- Line of POST /sales/{id}/add_lines (src/routers/sales.py:45-48). -/
structure SaleAddLine where
  sku : String
  qty : ℚ
  unit_price : ℚ
deriving DecidableEq, Repr

/-- Body of POST /sales/{id}/add_lines (src/routers/sales.py:50-52). -/
structure SaleAddLinesPayload where
  location_id : Option Nat := none
  lines : List SaleAddLine
deriving DecidableEq, Repr

/-- Response of POST /sales/{id}/add_lines (src/routers/sales.py:222). -/
structure AddLinesOut where
  status : String
  sale_id : Nat
  new_total : ℚ
deriving DecidableEq, Repr

/-- Python `payload.location_id or getattr(sale, "location_id", None)`
    (src/routers/sales.py:173): `or` falls through when the left operand is
    falsy, i.e. `None` or `0`. -/
def pyOrLocation : Option Nat → Nat → Nat
  | some n, d => if n = 0 then d else n
  | none, d => d

/-- Per-line loop of `add_lines_to_sale` (src/routers/sales.py:177-210):
    resolve the SKU (404), reject non-positive qty, guard stock at the
    resolved location against the availability in the committed state
    (pending rows are invisible: autoflush is off), stage the SaleLine with
    `line_total = qty * unit_price` and the negative SALE_ADJUST ledger
    row. -/
def add_lines_go (db : DB) (sale_id loc : Nat) :
    List SaleAddLine → Except Err (List SaleLine × List StockMove)
  | [] => .ok ([], [])
  | ln :: rest =>
    match findProductBySku db ln.sku with
    | none => .error (.notFound ("Product SKU not found: " ++ ln.sku))
    | some product =>
      if ln.qty ≤ 0 then .error (.invalidRequest "qty must be > 0")
      else if ln.qty > get_available_qty db product.id loc then
        .error (.insufficientStock ("Not enough stock for " ++ ln.sku))
      else
        match add_lines_go db sale_id loc rest with
        | .error e => .error e
        | .ok (pls, pms) =>
          .ok ((⟨sale_id, product.id, ln.qty, ln.unit_price,
                  ln.qty * ln.unit_price⟩ : SaleLine) :: pls,
               (⟨product.id, none, loc, -ln.qty, none, "SALE_ADJUST",
                  some ("SALE#" ++ toString sale_id)⟩ : StockMove) :: pms)

/-- `sale.total_amount = t` on the row with the given id. -/
def DB.setSaleTotal (db : DB) (sale_id : Nat) (t : ℚ) : DB :=
  { db with sales := db.sales.map (fun s =>
      if s.id = sale_id then { s with total_amount := t } else s) }

/-- `add_lines_to_sale` (src/routers/sales.py:163-222): after the per-line
    loop, the handler recomputes
    `total_now = COALESCE(SUM(sale_line.line_total), 0)` for the sale and
    commits.  The session has `autoflush=False` (src/db.py:8) and the new
    SaleLine rows are still pending, so this sum query sees only the lines
    committed BEFORE the call; the just-added lines are then flushed by the
    commit but are missing from `total_now`. -/
def add_lines_to_sale (db : DB) (sale_id : Nat)
    (payload : SaleAddLinesPayload) : Except Err (DB × AddLinesOut) :=
  match findSaleById db sale_id with
  | none => .error (.notFound "Sale not found")
  | some sale =>
    if payload.lines.isEmpty then .error (.invalidRequest "No lines provided")
    else
      let loc := pyOrLocation payload.location_id sale.location_id
      if loc = 0 then .error (.invalidRequest "location_id is required")
      else
        match add_lines_go db sale.id loc payload.lines with
        | .error e => .error e
        | .ok (pls, pms) =>
          let total_now := sqlCoalesceSum
            ((db.sale_lines.filter (fun sl => sl.sale_id == sale.id)).map
              (fun sl => sl.line_total))
          .ok ((DB.setSaleTotal
                  { db with
                      sale_lines := db.sale_lines ++ pls
                      stock_moves := db.stock_moves ++ pms }
                  sale.id total_now),
               ⟨"ok", sale.id, total_now⟩)

/-- Example database for C8: one product with 10 on hand at location 1 and
    one committed empty sale. -/
def exAddLinesDb : DB :=
  { products := [{ id := 1, sku := "X", name := "Prod X" }]
    locations := [⟨1, "A"⟩]
    stock_moves := [⟨1, none, 1, 10, none, "RECEIPT", none⟩]
    sales := [{ id := 1, created_at := ⟨⟨2025, 1, 2⟩, 0⟩, location_id := 1 }] }

/-- C8 (divergence witness).  Adding one line (qty 2 at unit price 3) to a
    committed sale with no prior lines persists a SaleLine with
    `line_total = 6` (the per-line invariant holds) but sets
    `Sale.total_amount` to the PRE-call sum `0`, because the recompute
    query runs before the pending lines are flushed (autoflush is off).
    The committed state thus violates
    `Sale.total_amount == sum(line_total)`. -/
theorem add_lines_total_amount_divergence :
    add_lines_to_sale exAddLinesDb 1 ⟨none, [⟨"X", 2, 3⟩]⟩ =
      .ok ({ products := [{ id := 1, sku := "X", name := "Prod X" }]
             locations := [⟨1, "A"⟩]
             stock_moves := [⟨1, none, 1, 10, none, "RECEIPT", none⟩,
               ⟨1, none, 1, -2, none, "SALE_ADJUST", some "SALE#1"⟩]
             sales := [⟨1, ⟨⟨2025, 1, 2⟩, 0⟩, none, 1, none, 0⟩]
             sale_lines := [⟨1, 1, 2, 3, 6⟩] },
           ⟨"ok", 1, 0⟩)
    ∧ (([(⟨1, 1, 2, 3, 6⟩ : SaleLine)].map (fun sl => sl.line_total)).sum = 6
        ∧ (6 : ℚ) ≠ 0) := by
  constructor
  · norm_num [add_lines_to_sale, exAddLinesDb, findSaleById, add_lines_go,
      findProductBySku, get_available_qty, sqlCoalesceSum, sqlSum,
      StockMove.matches, pyOrLocation, DB.setSaleTotal, Option.getD]
    rfl
  · norm_num

/-- Line of POST /receipts (src/routers/receipts.py:10-16). -/
structure ReceiptLine where
  product_sku : String
  qty : ℚ
  unit_cost : ℚ
  lot_code : Option String := none
  expiry_date : Option PyDate := none
  to_location_id : Nat := 1
deriving DecidableEq, Repr

/-- Body of POST /receipts (src/routers/receipts.py:18-20). -/
structure ReceiptIn where
  supplier : Option String := none
  lines : List ReceiptLine
deriving DecidableEq, Repr

/-- Response of POST /receipts (src/routers/receipts.py:54). -/
structure ReceiptOut where
  status : String
  lines : Nat
deriving DecidableEq, Repr

/-- `db.query(Lot).filter_by(product_id=..., lot_code=...).first()`
    (src/routers/receipts.py:33). -/
def findLotByProductAndCode (db : DB) (product_id : Nat) (code : String) :
    Option Lot :=
  db.lots.find? (fun lot => lot.product_id == product_id && lot.lot_code == code)

/-- Per-line loop of `post_receipt` (src/routers/receipts.py:25-51).  The
    result carries the COMMITTED state alongside the outcome, because the
    loop is not atomic: when a line's `lot_code` names a lot that does not
    exist yet, the handler runs `db.add(lot); db.commit()`
    (src/routers/receipts.py:36-37) in the middle of the batch, and that
    commit also flushes every RECEIPT ledger row staged by the earlier
    lines.  An unknown SKU on a later line then raises 400 with those
    mid-batch writes already durable. -/
def post_receipt_go (committed : DB) (pending : List StockMove)
    (created : Nat) : List ReceiptLine → DB × Except Err Nat
  | [] => (committed.appendMoves pending, .ok created)
  | line :: rest =>
    match findProductBySku committed line.product_sku with
    | none =>
      (committed,
        .error (.invalidRequest ("Unknown product SKU " ++ line.product_sku)))
    | some product =>
      match line.lot_code with
      | none =>
        post_receipt_go committed
          (pending ++ [⟨product.id, none, line.to_location_id, line.qty,
            some line.unit_cost, "RECEIPT", some "GRN"⟩])
          (created + 1) rest
      | some code =>
        match findLotByProductAndCode committed product.id code with
        | some lot =>
          post_receipt_go committed
            (pending ++ [⟨product.id, some lot.id, line.to_location_id,
              line.qty, some line.unit_cost, "RECEIPT", some "GRN"⟩])
            (created + 1) rest
        | none =>
          let lotId := (committed.lots.map (fun l => l.id)).foldr max 0 + 1
          let committed' :=
            { committed.appendMoves pending with
                lots := committed.lots ++ [⟨lotId, product.id, code,
                  line.expiry_date⟩] }
          post_receipt_go committed'
            [⟨product.id, some lotId, line.to_location_id, line.qty,
              some line.unit_cost, "RECEIPT", some "GRN"⟩]
            (created + 1) rest

/-- `post_receipt` (src/routers/receipts.py:22-54).  Returns the committed
    state (which, on failure, may already contain mid-batch writes) and
    the outcome. -/
def post_receipt (db : DB) (payload : ReceiptIn) : DB × Except Err ReceiptOut :=
  match post_receipt_go db [] 0 payload.lines with
  | (db', .ok n) => (db', .ok ⟨"ok", n⟩)
  | (db', .error e) => (db', .error e)

/-- Example database for C5: one product, one location, empty ledger. -/
def exReceiptDb : DB :=
  { products := [{ id := 1, sku := "A", name := "Prod A" }]
    locations := [⟨1, "Main Store"⟩] }

/-- Committed state left behind by the failing three-line receipt of C5:
    the first line's ledger row and both freshly created lots are durable
    even though the batch failed on its third line. -/
def exReceiptDbAfter : DB :=
  { products := [{ id := 1, sku := "A", name := "Prod A" }]
    locations := [⟨1, "Main Store"⟩]
    lots := [⟨1, 1, "L1", none⟩, ⟨2, 1, "L2", none⟩]
    stock_moves := [⟨1, some 1, 1, 5, some 1, "RECEIPT", some "GRN"⟩] }

/-- C5 (divergence witness).  A three-line receipt — two lines of SKU `A`
    with new lot codes `L1` and `L2`, then an unknown SKU `ZZZ` — fails
    with 400, yet afterwards both lots AND the first line's RECEIPT ledger
    row are committed: the lot find-or-create runs `db.commit()` mid-batch
    (src/routers/receipts.py:37), flushing earlier staged rows, so the
    failed batch is NOT atomic and the ledger is not as before the call. -/
theorem post_receipt_partial_commit_divergence :
    post_receipt exReceiptDb
        ⟨none, [⟨"A", 5, 1, some "L1", none, 1⟩,
                ⟨"A", 4, 1, some "L2", none, 1⟩,
                ⟨"ZZZ", 1, 1, none, none, 1⟩]⟩ =
      (exReceiptDbAfter, .error (.invalidRequest "Unknown product SKU ZZZ"))
    ∧ exReceiptDbAfter.stock_moves ≠ exReceiptDb.stock_moves
    ∧ exReceiptDbAfter.lots ≠ exReceiptDb.lots := by
  refine ⟨?_, by simp [exReceiptDb, exReceiptDbAfter],
    by simp [exReceiptDb, exReceiptDbAfter]⟩
  have h12 : ¬ ("L1" : String) = "L2" := by decide
  have hAZ : ¬ ("A" : String) = "ZZZ" := by decide
  norm_num [post_receipt, post_receipt_go, exReceiptDb, exReceiptDbAfter,
    findProductBySku, findLotByProductAndCode, DB.appendMoves, h12, hAZ]
  rfl

/-- Grouping key of the inventory snapshot (src/routers/reports.py:12-23):
    the SELECT/GROUP BY columns are `Product.sku`, `Product.name`,
    `Location.name`, `Lot.lot_code`, `Lot.expiry_date` — note the location
    and lot are identified by NAME/CODE, not by id. -/
structure InvKey where
  sku : String
  product : String
  location : String
  lot : Option String
  expiry : Option PyDate
deriving DecidableEq, Repr

/-- One output row of the inventory report: a group key and its summed
    quantity. -/
structure InvRow where
  key : InvKey
  qty : ℚ
deriving DecidableEq, Repr

/-- The FROM/JOIN clause of the inventory query
    (src/routers/reports.py:20-22): inner join `Product` and `Location`
    (ids are primary keys, so `find?` is the unique match), outer join
    `Lot` (absent lot leaves the lot columns NULL). -/
def invJoinRow (db : DB) (m : StockMove) : Option (InvKey × ℚ) :=
  match db.products.find? (fun p => p.id == m.product_id),
      db.locations.find? (fun l => l.id == m.location_id) with
  | some p, some loc =>
    let lot := m.lot_id.bind (fun lid => db.lots.find? (fun lt => lt.id == lid))
    some (⟨p.sku, p.name, loc.name, lot.map (fun lt => lt.lot_code),
      lot.bind (fun lt => lt.expiry_date)⟩, m.qty)
  | _, _ => none

/-- All joined (key, qty) rows of the inventory query. -/
def invJoined (db : DB) : List (InvKey × ℚ) :=
  db.stock_moves.filterMap (invJoinRow db)

/-- `COALESCE(SUM(StockMove.qty), 0)` for one group key. -/
def invGroupQty (db : DB) (k : InvKey) : ℚ :=
  sqlCoalesceSum (((invJoined db).filter (fun r => r.1 == k)).map
    (fun r => r.2))

/-- `Lot.expiry_date.asc().nullslast()` (src/routers/reports.py:25). -/
def expiryLE (a b : Option PyDate) : Prop :=
  match a, b with
  | some a, some b => a.toKey ≤ b.toKey
  | some _, none => True
  | none, some _ => False
  | none, none => True

instance : DecidableRel expiryLE := fun a b =>
  match a, b with
  | some a, some b => inferInstanceAs (Decidable (a.toKey ≤ b.toKey))
  | some _, none => inferInstanceAs (Decidable True)
  | none, some _ => inferInstanceAs (Decidable False)
  | none, none => inferInstanceAs (Decidable True)

/-- `ORDER BY Product.name, Location.name, Lot.expiry_date ASC NULLS LAST`
    (src/routers/reports.py:25). -/
def invKeyLE (a b : InvKey) : Prop :=
  a.product < b.product ∨ (a.product = b.product ∧
    (a.location < b.location ∨ (a.location = b.location ∧
      expiryLE a.expiry b.expiry)))

instance : DecidableRel invKeyLE := fun a b => by
  unfold invKeyLE
  infer_instance

/-- Report-row ordering, lifted from the key ordering. -/
def invRowLE (a b : InvRow) : Prop :=
  invKeyLE a.key b.key

instance : DecidableRel invRowLE := fun a b => by
  unfold invRowLE
  infer_instance

theorem expiryLE_total (a b : Option PyDate) : expiryLE a b ∨ expiryLE b a := by
  cases a <;> cases b <;> simp [expiryLE]
  exact Nat.le_total _ _

theorem expiryLE_trans {a b c : Option PyDate} (h1 : expiryLE a b)
    (h2 : expiryLE b c) : expiryLE a c := by
  cases a <;> cases b <;> cases c <;> simp_all [expiryLE]
  omega

instance : IsTotal InvKey invKeyLE := by
  constructor
  intro a b
  rcases lt_trichotomy a.product b.product with h | h | h
  · exact Or.inl (Or.inl h)
  · rcases lt_trichotomy a.location b.location with h' | h' | h'
    · exact Or.inl (Or.inr ⟨h, Or.inl h'⟩)
    · rcases expiryLE_total a.expiry b.expiry with he | he
      · exact Or.inl (Or.inr ⟨h, Or.inr ⟨h', he⟩⟩)
      · exact Or.inr (Or.inr ⟨h.symm, Or.inr ⟨h'.symm, he⟩⟩)
    · exact Or.inr (Or.inr ⟨h.symm, Or.inl h'⟩)
  · exact Or.inr (Or.inl h)

instance : IsTrans InvKey invKeyLE := by
  constructor
  intro a b c hab hbc
  rcases hab with hab | ⟨habp, hab⟩
  · rcases hbc with hbc | ⟨hbcp, _⟩
    · exact Or.inl (lt_trans hab hbc)
    · exact Or.inl (hbcp ▸ hab)
  · rcases hbc with hbc | ⟨hbcp, hbc⟩
    · exact Or.inl (habp ▸ hbc)
    · refine Or.inr ⟨habp.trans hbcp, ?_⟩
      rcases hab with hab | ⟨habl, hab⟩
      · rcases hbc with hbc | ⟨hbcl, _⟩
        · exact Or.inl (lt_trans hab hbc)
        · exact Or.inl (hbcl ▸ hab)
      · rcases hbc with hbc | ⟨hbcl, hbc⟩
        · exact Or.inl (habl ▸ hbc)
        · exact Or.inr ⟨habl.trans hbcl, expiryLE_trans hab hbc⟩

instance : IsTotal InvRow invRowLE :=
  ⟨fun a b => IsTotal.total (r := invKeyLE) a.key b.key⟩

instance : IsTrans InvRow invRowLE :=
  ⟨fun _ _ _ hab hbc => IsTrans.trans (r := invKeyLE) _ _ _ hab hbc⟩

/-- `inventory` (src/routers/reports.py:9-39): group the joined rows by
    `InvKey`, sum `qty` per group, keep only groups with nonzero sum
    (`HAVING ... != 0`), and sort by product name, location name, expiry
    ascending with NULLs last. -/
def inventory_rows (db : DB) : List InvRow :=
  let keys := ((invJoined db).map Prod.fst).dedup
  let grouped := keys.map (fun k => (⟨k, invGroupQty db k⟩ : InvRow))
  let nonzero := grouped.filter (fun r => r.qty != 0)
  nonzero.insertionSort invRowLE

/-- C9 (amended).  For every database state, the inventory snapshot: every
    output row carries the coalesced qty-sum of its group and a nonzero
    sum over a key that occurs among the joined ledger rows; every
    group key with a nonzero sum appears (zero-sum groups are suppressed);
    keys are pairwise distinct (one row per group); and the rows are
    sorted by product name, then location name, then lot expiry ascending
    with null expiries last.  Groups are keyed by (sku, product name,
    location NAME, lot code, lot expiry) — see the counterexample for why
    this differs from grouping by location identity. -/
theorem inventory_report_spec (db : DB) :
    (∀ r ∈ inventory_rows db, r.qty = invGroupQty db r.key ∧ r.qty ≠ 0 ∧
        r.key ∈ (invJoined db).map Prod.fst)
    ∧ (∀ k ∈ (invJoined db).map Prod.fst, invGroupQty db k ≠ 0 →
        ∃ r ∈ inventory_rows db, r.key = k ∧ r.qty = invGroupQty db k)
    ∧ ((inventory_rows db).map (fun r => r.key)).Nodup
    ∧ (inventory_rows db).Sorted invRowLE := by
  have hmem : ∀ r : InvRow, r ∈ inventory_rows db ↔
      r ∈ (((invJoined db).map Prod.fst).dedup.map
            (fun k => (⟨k, invGroupQty db k⟩ : InvRow))).filter
          (fun r => r.qty != 0) := by
    intro r
    simp [inventory_rows]
  refine ⟨?_, ?_, ?_, ?_⟩
  · intro r hr
    rw [hmem] at hr
    have h1 := List.mem_filter.mp hr
    obtain ⟨k, hk, rfl⟩ := List.mem_map.mp h1.1
    refine ⟨rfl, ?_, List.mem_dedup.mp hk⟩
    simpa using h1.2
  · intro k hk hnz
    refine ⟨⟨k, invGroupQty db k⟩, ?_, rfl, rfl⟩
    rw [hmem]
    exact List.mem_filter.mpr
      ⟨List.mem_map.mpr ⟨k, List.mem_dedup.mpr hk, rfl⟩, by simpa using hnz⟩
  · have hrw : inventory_rows db =
        ((((invJoined db).map Prod.fst).dedup.map
            (fun k => (⟨k, invGroupQty db k⟩ : InvRow))).filter
          (fun r => r.qty != 0)).insertionSort invRowLE := rfl
    rw [hrw]
    have hperm := (List.perm_insertionSort invRowLE
      ((((invJoined db).map Prod.fst).dedup.map
          (fun k => (⟨k, invGroupQty db k⟩ : InvRow))).filter
        (fun r => r.qty != 0))).map (fun r : InvRow => r.key)
    rw [hperm.nodup_iff]
    have hsub : List.Sublist
        (((((invJoined db).map Prod.fst).dedup.map
            (fun k => (⟨k, invGroupQty db k⟩ : InvRow))).filter
          (fun r => r.qty != 0)).map (fun r => r.key))
        ((((invJoined db).map Prod.fst).dedup.map
            (fun k => (⟨k, invGroupQty db k⟩ : InvRow))).map (fun r => r.key)) :=
      (List.filter_sublist (((invJoined db).map Prod.fst).dedup.map
        (fun k => (⟨k, invGroupQty db k⟩ : InvRow)))).map (fun r : InvRow => r.key)
    refine List.Nodup.sublist hsub ?_
    rw [List.map_map]
    have hid : ((fun (r : InvRow) => r.key) ∘
        fun k => (⟨k, invGroupQty db k⟩ : InvRow)) = id := rfl
    rw [hid, List.map_id]
    exact List.nodup_dedup ((invJoined db).map Prod.fst)
  · have : inventory_rows db =
        ((((invJoined db).map Prod.fst).dedup.map
            (fun k => (⟨k, invGroupQty db k⟩ : InvRow))).filter
          (fun r => r.qty != 0)).insertionSort invRowLE := rfl
    rw [this]
    exact List.sorted_insertionSort _ _

/-- Database exhibiting the location-name grouping of the inventory
    report: two distinct locations that share the name `A`, holding 5 and
    3 units of the same product. -/
def invCxDb : DB :=
  { products := [{ id := 1, sku := "P1", name := "Prod" }]
    locations := [⟨1, "A"⟩, ⟨2, "A"⟩]
    stock_moves := [⟨1, none, 1, 5, none, "RECEIPT", none⟩,
      ⟨1, none, 2, 3, none, "RECEIPT", none⟩] }

theorem invCxDb_joined : invJoined invCxDb =
    [(⟨"P1", "Prod", "A", none, none⟩, 5),
     (⟨"P1", "Prod", "A", none, none⟩, 3)] := by
  norm_num [invJoined, invCxDb, invJoinRow, List.filterMap_cons]

theorem invCxDb_groupQty :
    invGroupQty invCxDb ⟨"P1", "Prod", "A", none, none⟩ = 8 := by
  rw [invGroupQty, invCxDb_joined]
  norm_num [sqlCoalesceSum, sqlSum, Option.getD]

/-- C9 counterexample.  In `invCxDb` there are two distinct
    (product, location, lot) groups with nonzero sums — 5 units at
    location 1 and 3 units at location 2 — so a report that groups by
    (product, location, lot) would emit two rows; the actual report emits
    a single merged row of qty 8, because the SQL groups by
    `Location.name` and both locations are named `A`.  Hence the claim
    "groups ledger rows by (product, location, lot)" is false at this
    input. -/
theorem inventory_groups_by_location_name_cx :
    inventory_rows invCxDb = [⟨⟨"P1", "Prod", "A", none, none⟩, 8⟩]
    ∧ sqlCoalesceSum ((invCxDb.stock_moves.filter
        (fun m => m.matches 1 1)).map (fun m => m.qty)) = 5
    ∧ sqlCoalesceSum ((invCxDb.stock_moves.filter
        (fun m => m.matches 1 2)).map (fun m => m.qty)) = 3
    ∧ (5 : ℚ) ≠ 0 ∧ (3 : ℚ) ≠ 0 := by
  refine ⟨?_, ?_, ?_, by norm_num, by norm_num⟩
  · have h8 : (((8 : ℚ) != 0)) = true := by
      norm_num
    simp only [inventory_rows, invCxDb_joined]
    norm_num [List.dedup_cons_of_mem, invCxDb_groupQty, h8,
      List.insertionSort, List.orderedInsert]
  · norm_num [invCxDb, StockMove.matches, sqlCoalesceSum, sqlSum,
      Option.getD]
  · norm_num [invCxDb, StockMove.matches, sqlCoalesceSum, sqlSum,
      Option.getD]

/-- Witness for the amended C9 on a concrete state: the merged group key
    appears in the report with the summed quantity. -/
theorem inventory_report_spec_witness :
    ∃ r ∈ inventory_rows invCxDb, r.key = ⟨"P1", "Prod", "A", none, none⟩ ∧
      r.qty = invGroupQty invCxDb ⟨"P1", "Prod", "A", none, none⟩ := by
  refine (inventory_report_spec invCxDb).2.1 ⟨"P1", "Prod", "A", none, none⟩
    ?_ ?_
  · rw [invCxDb_joined]
    norm_num
  · rw [invCxDb_groupQty]
    norm_num

/-- Splitting a character list on the dash separator (the string
    decomposition performed by Python's `date.fromisoformat`). -/
def splitDashes : List Char → List (List Char)
  | [] => [[]]
  | c :: cs =>
    if c = '-' then [] :: splitDashes cs
    else
      match splitDashes cs with
      | [] => [[c]]
      | g :: gs => (c :: g) :: gs

def digitsToNatAux : Nat → List Char → Option Nat
  | acc, [] => some acc
  | acc, c :: cs =>
    if c.isDigit then digitsToNatAux (acc * 10 + (c.toNat - 48)) cs else none

/-- All-digit numeral to `Nat`; `none` on the empty string or any
    non-digit. -/
def digitsToNat? (cs : List Char) : Option Nat :=
  if cs.isEmpty then none else digitsToNatAux 0 cs

/-- Days per month with the Gregorian leap rule. -/
def daysInMonth (y m : Nat) : Nat :=
  if m = 2 then (if (y % 4 = 0 ∧ y % 100 ≠ 0) ∨ y % 400 = 0 then 29 else 28)
  else if m = 4 ∨ m = 6 ∨ m = 9 ∨ m = 11 then 30
  else 31

/-- Model of the Python standard library's `datetime.date.fromisoformat`
    on the canonical `YYYY-MM-DD` shape (src/routers/sales.py:244-245 calls
    it inside a try/except ValueError): three dash-separated all-digit
    groups of widths 4, 2, 2 forming a real calendar date, otherwise a
    `ValueError`, modelled as `none`. -/
def date_fromisoformat (s : String) : Option PyDate :=
  match splitDashes s.toList with
  | [y, m, d] =>
    if y.length = 4 ∧ m.length = 2 ∧ d.length = 2 then
      match digitsToNat? y, digitsToNat? m, digitsToNat? d with
      | some yn, some mn, some dn =>
        if 1 ≤ mn ∧ mn ≤ 12 ∧ 1 ≤ dn ∧ dn ≤ daysInMonth yn mn then
          some ⟨yn, mn, dn⟩
        else none
      | _, _, _ => none
    else none
  | _ => none

/-- One row of GET /sales/history (src/routers/sales.py:270-279). -/
structure HistoryRow where
  id : Nat
  created_at : PyDateTime
  customer_name : Option String
  total : ℚ
deriving DecidableEq, Repr

/-- `ORDER BY Sale.created_at DESC` (src/routers/sales.py:265) as a
    relation: later timestamps first. -/
def saleDescLE (a b : Sale) : Prop :=
  b.created_at.date.toKey < a.created_at.date.toKey ∨
    (b.created_at.date.toKey = a.created_at.date.toKey ∧
      b.created_at.tod ≤ a.created_at.tod)

instance : DecidableRel saleDescLE := fun a b => by
  unfold saleDescLE
  infer_instance

/-- `sales_history` (src/routers/sales.py:230-280): parse both date
    strings, returning `[]` on a parse failure instead of erroring; swap
    the bounds when `end_d < start_d`; keep the sales whose creation DATE
    falls in the inclusive range; group per sale with
    `COALESCE(SUM(SaleLine.line_total), 0)` as the recomputed total; order
    by `created_at` descending and apply the row limit. -/
def sales_history (db : DB) (start_date end_date : String) (lim : Nat) :
    List HistoryRow :=
  match date_fromisoformat start_date, date_fromisoformat end_date with
  | some sd0, some ed0 =>
    let se := if ed0.toKey < sd0.toKey then (ed0, sd0) else (sd0, ed0)
    let rows := db.sales.filter (fun s =>
      decide (se.1.toKey ≤ s.created_at.date.toKey) &&
        decide (s.created_at.date.toKey ≤ se.2.toKey))
    let sorted := rows.insertionSort saleDescLE
    (sorted.take lim).map (fun s =>
      ⟨s.id, s.created_at, s.customer_name,
        sqlCoalesceSum ((db.sale_lines.filter
          (fun sl => sl.sale_id == s.id)).map (fun sl => sl.line_total))⟩)
  | _, _ => []

/-- C10.  GET /sales/history returns the empty list (instead of an error)
    whenever either date string fails ISO-date parsing; and when both parse
    with `end_date` strictly earlier than `start_date`, the bounds are
    swapped, so the result is exactly that of the query with the two date
    arguments exchanged. -/
theorem sales_history_date_handling (db : DB) (s e : String) (lim : Nat) :
    ((date_fromisoformat s = none ∨ date_fromisoformat e = none) →
      sales_history db s e lim = [])
    ∧ (∀ ds de, date_fromisoformat s = some ds →
        date_fromisoformat e = some de → de.toKey < ds.toKey →
        sales_history db s e lim = sales_history db e s lim) := by
  constructor
  · intro h
    unfold sales_history
    rcases h with h | h
    · rw [h]
    · rw [h]
      cases date_fromisoformat s <;> rfl
  · intro ds de hs he hlt
    simp only [sales_history, hs, he]
    have h1 : (if de.toKey < ds.toKey then (de, ds) else (ds, de)) =
        (de, ds) := if_pos hlt
    have h2 : (if ds.toKey < de.toKey then (ds, de) else (de, ds)) =
        (de, ds) := if_neg (by omega)
    rw [h1, h2]

/-- Witness for C10: a malformed month yields the empty list, and reversed
    bounds give the same result as the ordered bounds. -/
theorem sales_history_date_handling_witness :
    sales_history { sales := [⟨1, ⟨⟨2025, 1, 5⟩, 0⟩, none, 1, none, 0⟩] }
        "2025-99-01" "2025-01-10" 5 = []
    ∧ sales_history { sales := [⟨1, ⟨⟨2025, 1, 5⟩, 0⟩, none, 1, none, 0⟩] }
        "2025-01-10" "2025-01-01" 5 =
      sales_history { sales := [⟨1, ⟨⟨2025, 1, 5⟩, 0⟩, none, 1, none, 0⟩] }
        "2025-01-01" "2025-01-10" 5 := by
  refine ⟨(sales_history_date_handling
      { sales := [⟨1, ⟨⟨2025, 1, 5⟩, 0⟩, none, 1, none, 0⟩] }
      "2025-99-01" "2025-01-10" 5).1 (Or.inl ?_),
    (sales_history_date_handling
      { sales := [⟨1, ⟨⟨2025, 1, 5⟩, 0⟩, none, 1, none, 0⟩] }
      "2025-01-10" "2025-01-01" 5).2 ⟨2025, 1, 10⟩ ⟨2025, 1, 1⟩ ?_ ?_ ?_⟩
  · rfl
  · rfl
  · rfl
  · decide
